import Mathlib

/-!
Verification development for the LinkedIn auto-poster service.

The embedding models, from the source:
- `ExternalMonitor.pingApp` (external keep-alive monitor): a bounded retry loop
  of health-endpoint GETs, sleeping 30000 ms between rejected attempts.
- `KeepAliveService.pingServer` / `startKeepAlive` (index.js): the in-process
  self-pinger and its cron-timer setup, guarded by the enabled flag.
- `LinkedInContentService`: Gemini response processing (candidate extraction and
  the double-asterisk strip), the LinkedIn publisher, and the workflow that
  sequences them.
- The startup environment validation and the Express server construction.

Outbound HTTP calls are inputs to the embedded functions: an `Outcome` is what
the network returns for one request; `axiosGet` applies the axios default
`validateStatus` (resolve on 2xx, reject otherwise). Code paths that could
raise a JavaScript exception to the caller are embedded in `Except`; a function
that the source wraps entirely in try/catch is total.
-/

/-- What the network returns for one request: an HTTP response with a status
code, or a transport error (timeout, connection failure). -/
inductive Outcome
  | ok (status : Nat)
  | err
deriving DecidableEq

/-- An axios call either resolves with a response or rejects (throws). -/
inductive AxiosResult
  | resolved (status : Nat)
  | rejected
deriving DecidableEq

/-- axios default `validateStatus`: the promise resolves exactly on 2xx
statuses; any other status, or a transport error, rejects. -/
def axiosGet (o : Outcome) : AxiosResult :=
  match o with
  | Outcome.ok s => if 200 ≤ s ∧ s < 300 then AxiosResult.resolved s else AxiosResult.rejected
  | Outcome.err => AxiosResult.rejected

/-- An attempt counts as a successful ping exactly when the request resolves
with status 200 (`response.status === 200` in `pingApp`). -/
def isPingSuccess (o : Outcome) : Bool :=
  match axiosGet o with
  | AxiosResult.resolved s => s == 200
  | AxiosResult.rejected => false

/-- Observable trace of one `pingApp` cycle: the returned boolean, the number
of attempts made, and the list of backoff sleep durations (ms) in order. -/
structure PingTrace where
  result : Bool
  attempts : Nat
  sleepsMs : List Nat
deriving DecidableEq

/-- `this.retryCount = 3` in the `ExternalMonitor` constructor. -/
def RETRY_COUNT : Nat := 3

/-- `await this.sleep(30000)` between failed attempts. -/
def BACKOFF_MS : Nat := 30000

/-- The body of `ExternalMonitor.pingApp`'s `for` loop, one iteration per unit
of fuel (fuel starts at `retryCount`, `attempt` at 1). On a resolved 200 the
loop returns true; on a resolved non-200 the loop just continues (no catch,
hence no sleep); on a rejection it sleeps 30000 ms when `attempt < retryCount`
and continues. When the loop ends, `pingApp` returns false. -/
def pingAppAux (endpoint : Nat → Outcome) (retryCount : Nat) :
    Nat → Nat → List Nat → PingTrace
  | 0, _, sleeps => ⟨false, retryCount, sleeps⟩
  | remaining + 1, attempt, sleeps =>
    match axiosGet (endpoint attempt) with
    | AxiosResult.resolved s =>
      if s = 200 then ⟨true, attempt, sleeps⟩
      else pingAppAux endpoint retryCount remaining (attempt + 1) sleeps
    | AxiosResult.rejected =>
      if attempt < retryCount then
        pingAppAux endpoint retryCount remaining (attempt + 1) (sleeps ++ [BACKOFF_MS])
      else
        pingAppAux endpoint retryCount remaining (attempt + 1) sleeps

/-- `ExternalMonitor.pingApp`: retry loop over attempts 1..3 against the
health endpoint, where `endpoint n` is the network outcome of attempt `n`. -/
def pingApp (endpoint : Nat → Outcome) : PingTrace :=
  pingAppAux endpoint RETRY_COUNT RETRY_COUNT 1 []

/-- Endpoint that answers 204 No Content on attempt 1 and 200 afterwards:
it fails exactly once (a 204 is not a successful ping) and then succeeds. -/
def respond204Once : Nat → Outcome :=
  fun n => if n = 1 then Outcome.ok 204 else Outcome.ok 200

/-- Endpoint that answers 204 No Content on every attempt: every attempt
fails, yet every request resolves, so the catch branch never runs. -/
def alwaysRespond204 : Nat → Outcome := fun _ => Outcome.ok 204

/-- Endpoint whose first two requests reject (network error) and whose third
answers 200. -/
def errTwiceThen200 : Nat → Outcome :=
  fun n => if n ≤ 2 then Outcome.err else Outcome.ok 200

/-- Endpoint whose every request rejects. -/
def allErrEndpoint : Nat → Outcome := fun _ => Outcome.err

/-- Response body of the `GET /health` route in index.js. -/
structure HealthResponse where
  status : String
  uptime : Nat
deriving DecidableEq

/-- The `/health` handler: always answers status "healthy" with the uptime. -/
def healthHandler (uptime : Nat) : HealthResponse :=
  ⟨"healthy", uptime⟩

/-- Recurring jobs that `Server` can arm via `cron.schedule`. -/
inductive ScheduledJob
  | keepAliveCron
deriving DecidableEq

/-- `KeepAliveService.startKeepAlive`: when the enabled flag is false it logs
and returns without scheduling anything; otherwise it schedules the 8-minute
keep-alive cron job. -/
def startKeepAlive (isEnabled : Bool) : List ScheduledJob :=
  if !isEnabled then [] else [ScheduledJob.keepAliveCron]

/-- Result of one `KeepAliveService.pingServer` invocation. -/
inductive PingServerResult
  | skippedDisabled
  | successLogged (status : Nat)
  | failureLogged
deriving DecidableEq

/-- Trace of one `pingServer` invocation: its logged result and how many
outbound HTTP requests it made. -/
structure PingServerTrace where
  result : PingServerResult
  outboundCalls : Nat
deriving DecidableEq

/-- `KeepAliveService.pingServer`: returns immediately when the enabled flag
is false; otherwise performs one GET of `/health`, logging success on a
resolved response and a warning on a rejection (caught, never rethrown). -/
def pingServer (isEnabled : Bool) (o : Outcome) : PingServerTrace :=
  if !isEnabled then ⟨PingServerResult.skippedDisabled, 0⟩
  else
    match axiosGet o with
    | AxiosResult.resolved s => ⟨PingServerResult.successLogged s, 1⟩
    | AxiosResult.rejected => ⟨PingServerResult.failureLogged, 1⟩

/-- `text.replace(/\x2a\x2a/g, '')` on the character list of the text: the
JavaScript global replace scans left to right, removing each non-overlapping
occurrence of two consecutive asterisks. -/
def cleanStars : List Char → List Char
  | [] => []
  | [c] => [c]
  | c1 :: c2 :: rest =>
    if c1 = '*' ∧ c2 = '*' then cleanStars rest
    else c1 :: cleanStars (c2 :: rest)

/-- Whether a character list contains two consecutive asterisks. -/
def hasStarPair : List Char → Bool
  | c1 :: c2 :: rest => (c1 == '*' && c2 == '*') || hasStarPair (c2 :: rest)
  | _ => false

/-- The cleaning step lifted to `String`. -/
def cleanStarsStr (s : String) : String :=
  String.mk (cleanStars s.data)

/-- One part of a Gemini candidate's content; `text` may be missing
(accessing a method on it would then throw). -/
structure GenPart where
  text : Option String
deriving DecidableEq

/-- The `content` object of a Gemini candidate. -/
structure GenContent where
  parts : List GenPart
deriving DecidableEq

/-- One candidate of a Gemini response; `content` may be missing. -/
structure Candidate where
  content : Option GenContent
deriving DecidableEq

/-- The response body; `candidates` may be missing entirely. -/
structure GeminiData where
  candidates : Option (List Candidate)
deriving DecidableEq

/-- A resolved Gemini HTTP response: status code and optional body. -/
structure GeminiResponse where
  status : Nat
  data : Option GeminiData
deriving DecidableEq

/-- `response.data.candidates[0].content.parts[0].text` — the expression inside
the try block of `processGeneratedContent`. Every missing field on the path
makes the JavaScript expression throw, embedded as `Except.error`. -/
def extractFirstText (cs : List Candidate) : Except Unit String :=
  match cs with
  | [] => Except.error ()
  | c :: _ =>
    match c.content with
    | none => Except.error ()
    | some ct =>
      match ct.parts with
      | [] => Except.error ()
      | p :: _ =>
        match p.text with
        | none => Except.error ()
        | some t => Except.ok t

/-- A response "lacks a candidate list" when the body or its `candidates`
field is missing, or the list is empty (`!response.data.candidates?.length`). -/
def lacksCandidates (r : GeminiResponse) : Bool :=
  match r.data with
  | none => true
  | some d =>
    match d.candidates with
    | none => true
    | some cs => cs.isEmpty

/-- `LinkedInContentService.processGeneratedContent`: on a non-200 status,
missing body, or missing/empty candidate list it logs a warning and returns
null; otherwise it extracts the first candidate's text inside a try/catch
(parsing error gives null) and strips the double-asterisk markers. -/
def processGeneratedContent (r : GeminiResponse) : Option String :=
  if r.status ≠ 200 then none
  else
    match r.data with
    | none => none
    | some d =>
      match d.candidates with
      | none => none
      | some cs =>
        if cs.isEmpty then none
        else
          match extractFirstText cs with
          | Except.error _ => none
          | Except.ok t => some (cleanStarsStr t)

/-- The value `generateContent` produces: null when the Gemini call rejected
(caught, logged), else the processed response. -/
def genResult (ar : Except Unit GeminiResponse) : Option String :=
  match ar with
  | Except.error _ => none
  | Except.ok r => processGeneratedContent r

/-- `LinkedInContentService.generateContent` with its exception surface made
explicit: the whole body sits in one try/catch, so the function never
propagates an error — it returns `Except.ok` of the (possibly null) content. -/
def generateContentE (ar : Except Unit GeminiResponse) : Except Unit (Option String) :=
  match ar with
  | Except.error _ => Except.ok none
  | Except.ok r => Except.ok (processGeneratedContent r)

/-- Outcome of one `postToLinkedIn` invocation. -/
inductive PostResult
  | skippedEmpty
  | posted (success : Bool)
deriving DecidableEq

/-- Trace of one `postToLinkedIn` invocation: its logged result and how many
outbound HTTP requests it made. -/
structure PostTrace where
  result : PostResult
  outboundCalls : Nat
deriving DecidableEq

/-- `LinkedInContentService.postToLinkedIn` with its exception surface made
explicit: a falsy `content` (null or empty string) is a logged no-op with no
outbound call; otherwise one POST is made and both outcomes are caught and
logged, never rethrown. -/
def postToLinkedInE (content : Option String) (postApi : Except Unit Unit) :
    Except Unit PostTrace :=
  match content with
  | none => Except.ok ⟨PostResult.skippedEmpty, 0⟩
  | some s =>
    if s = "" then Except.ok ⟨PostResult.skippedEmpty, 0⟩
    else
      match postApi with
      | Except.ok _ => Except.ok ⟨PostResult.posted true, 1⟩
      | Except.error _ => Except.ok ⟨PostResult.posted false, 1⟩

/-- The two outbound operations a workflow run can perform, in order. -/
inductive WorkflowEvent
  | genCall
  | publishCall
deriving DecidableEq

/-- `LinkedInContentService.runContentWorkflow` with its exception surface
made explicit: awaits the generator, then — only if the content is truthy
(non-null, non-empty) — awaits the publisher. A hypothetical error from
either awaited call would propagate to the caller. -/
def runContentWorkflowE (ar : Except Unit GeminiResponse) (postApi : Except Unit Unit) :
    Except Unit (List WorkflowEvent) :=
  match generateContentE ar with
  | Except.error e => Except.error e
  | Except.ok none => Except.ok [WorkflowEvent.genCall]
  | Except.ok (some s) =>
    if s = "" then Except.ok [WorkflowEvent.genCall]
    else
      match postToLinkedInE (some s) postApi with
      | Except.error e => Except.error e
      | Except.ok _ => Except.ok [WorkflowEvent.genCall, WorkflowEvent.publishCall]

/-- Body of the success response of `POST /trigger-post`. -/
def SUCCESS_MSG : String := "Content workflow triggered successfully"

/-- The `POST /trigger-post` handler: awaits the workflow inside try/catch and
answers 200 with a success message, or 500 if the workflow rejected. -/
def triggerPostResponse (ar : Except Unit GeminiResponse) (postApi : Except Unit Unit) :
    Nat × String :=
  match runContentWorkflowE ar postApi with
  | Except.ok _ => (200, SUCCESS_MSG)
  | Except.error _ => (500, "Failed to trigger content workflow")

/-- The four environment variables validated at startup in index.js. -/
def REQUIRED_ENV_VARS : List String :=
  ["GEMINI_API_KEY", "LINKEDIN_PERSON_ID", "LINKEDIN_ACCESS_TOKEN", "PORT"]

/-- JavaScript truthiness of `process.env[variable]`: an environment value is
truthy exactly when it is present and not the empty string. -/
def envTruthy (v : Option String) : Bool :=
  match v with
  | none => false
  | some s => s != ""

/-- The startup `forEach` over `REQUIRED_ENV_VARS`: `process.exit(1)` fires on
the first falsy variable, so the result is the first missing one, if any. -/
def validateEnv (env : String → Option String) : Option String :=
  REQUIRED_ENV_VARS.find? (fun v => !envTruthy (env v))

/-- JavaScript `a || dflt` for an environment string value. -/
def jsOrDefault (v : Option String) (dflt : String) : String :=
  match v with
  | none => dflt
  | some s => if s = "" then dflt else s

/-- How the process start ends: an immediate `process.exit(1)` naming the
missing variable, or a constructed server listening on a port. -/
inductive StartupResult
  | exitedMissing (code : Nat) (missingVar : String)
  | serverStarted (port : String)
deriving DecidableEq

/-- Module start of index.js: the environment validation runs first and exits
the process with code 1 on the first missing variable; only then is the
`Server` constructed, with `this.port = process.env.PORT || 3000`. -/
def startup (env : String → Option String) : StartupResult :=
  match validateEnv env with
  | some v => StartupResult.exitedMissing 1 v
  | none => StartupResult.serverStarted (jsOrDefault (env "PORT") "3000")

/-- Environment with every required variable set (to its own name). -/
def envAllSet : String → Option String := fun v => some v

/-- Environment with everything set except PORT. -/
def envMissingPort : String → Option String :=
  fun v => if v = "PORT" then none else some v

/-- A 200 Gemini response whose body has no `candidates` field. -/
def noCandidatesResponse : GeminiResponse := ⟨200, some ⟨none⟩⟩

/-! ## Helper lemmas about the retry loop -/

theorem pingAppAux_zero (e : Nat → Outcome) (retry attempt : Nat) (sleeps : List Nat) :
    pingAppAux e retry 0 attempt sleeps = ⟨false, retry, sleeps⟩ := rfl

theorem pingAppAux_succ_ok200 (e : Nat → Outcome) (retry remaining attempt : Nat)
    (sleeps : List Nat) (h : e attempt = Outcome.ok 200) :
    pingAppAux e retry (remaining + 1) attempt sleeps = ⟨true, attempt, sleeps⟩ := by
  have hstep : pingAppAux e retry (remaining + 1) attempt sleeps =
      match axiosGet (e attempt) with
      | AxiosResult.resolved s =>
        if s = 200 then ⟨true, attempt, sleeps⟩
        else pingAppAux e retry remaining (attempt + 1) sleeps
      | AxiosResult.rejected =>
        if attempt < retry then
          pingAppAux e retry remaining (attempt + 1) (sleeps ++ [BACKOFF_MS])
        else pingAppAux e retry remaining (attempt + 1) sleeps := rfl
  rw [hstep, h]
  rfl

theorem pingAppAux_succ_rejected_lt (e : Nat → Outcome) (retry remaining attempt : Nat)
    (sleeps : List Nat) (h : axiosGet (e attempt) = AxiosResult.rejected)
    (hlt : attempt < retry) :
    pingAppAux e retry (remaining + 1) attempt sleeps =
      pingAppAux e retry remaining (attempt + 1) (sleeps ++ [BACKOFF_MS]) := by
  have hstep : pingAppAux e retry (remaining + 1) attempt sleeps =
      match axiosGet (e attempt) with
      | AxiosResult.resolved s =>
        if s = 200 then ⟨true, attempt, sleeps⟩
        else pingAppAux e retry remaining (attempt + 1) sleeps
      | AxiosResult.rejected =>
        if attempt < retry then
          pingAppAux e retry remaining (attempt + 1) (sleeps ++ [BACKOFF_MS])
        else pingAppAux e retry remaining (attempt + 1) sleeps := rfl
  rw [hstep, h]
  exact if_pos hlt

theorem pingAppAux_succ_rejected_ge (e : Nat → Outcome) (retry remaining attempt : Nat)
    (sleeps : List Nat) (h : axiosGet (e attempt) = AxiosResult.rejected)
    (hge : ¬ attempt < retry) :
    pingAppAux e retry (remaining + 1) attempt sleeps =
      pingAppAux e retry remaining (attempt + 1) sleeps := by
  have hstep : pingAppAux e retry (remaining + 1) attempt sleeps =
      match axiosGet (e attempt) with
      | AxiosResult.resolved s =>
        if s = 200 then ⟨true, attempt, sleeps⟩
        else pingAppAux e retry remaining (attempt + 1) sleeps
      | AxiosResult.rejected =>
        if attempt < retry then
          pingAppAux e retry remaining (attempt + 1) (sleeps ++ [BACKOFF_MS])
        else pingAppAux e retry remaining (attempt + 1) sleeps := rfl
  rw [hstep, h]
  exact if_neg hge

/-! ## C1 and C2: the bounded-retry keep-alive cycle -/

/-- Claim C1, counterexample. The claim asserts that an endpoint failing
exactly k times (k < 3) and then succeeding yields success after k+1 attempts
with exactly k backoff sleeps. Against an endpoint whose first attempt
resolves with 204 No Content (a failed ping: not a 200) and whose second
resolves with 200, `pingApp` succeeds after 2 attempts but performs zero
sleeps, not one: the 30-second backoff sits in the catch branch only, and a
resolved non-200 response retries immediately. -/
theorem pingApp_resolved_non200_skips_backoff_cex :
    isPingSuccess (respond204Once 1) = false ∧
    isPingSuccess (respond204Once 2) = true ∧
    pingApp respond204Once = ⟨true, 2, []⟩ ∧
    (pingApp respond204Once).sleepsMs ≠ List.replicate 1 BACKOFF_MS := by
  refine ⟨rfl, rfl, rfl, ?_⟩
  intro hcon
  simp [pingApp, RETRY_COUNT] at hcon
  exact absurd (congrArg List.length hcon) (by decide)

/-- Claim C1, amended: for every keep-alive cycle whose first k attempts are
rejected requests (network error, timeout, or non-2xx status — k < 3) and
whose attempt k+1 resolves with 200, `pingApp` returns success after exactly
k+1 attempts with exactly k constant 30000 ms backoff sleeps. -/
theorem pingApp_rejected_k_then_success (endpoint : Nat → Outcome) (k : Nat)
    (hk : k < 3)
    (hfail : ∀ i, 1 ≤ i → i ≤ k → axiosGet (endpoint i) = AxiosResult.rejected)
    (hsucc : endpoint (k + 1) = Outcome.ok 200) :
    pingApp endpoint = ⟨true, k + 1, List.replicate k BACKOFF_MS⟩ := by
  interval_cases k
  · show pingAppAux endpoint 3 (2 + 1) 1 [] = _
    rw [pingAppAux_succ_ok200 endpoint 3 2 1 [] hsucc]
    rfl
  · have h1 := hfail 1 (by norm_num) (by norm_num)
    show pingAppAux endpoint 3 (2 + 1) 1 [] = _
    rw [pingAppAux_succ_rejected_lt endpoint 3 2 1 [] h1 (by norm_num)]
    show pingAppAux endpoint 3 (1 + 1) 2 [BACKOFF_MS] = _
    rw [pingAppAux_succ_ok200 endpoint 3 1 2 [BACKOFF_MS] hsucc]
    rfl
  · have h1 := hfail 1 (by norm_num) (by norm_num)
    have h2 := hfail 2 (by norm_num) (by norm_num)
    show pingAppAux endpoint 3 (2 + 1) 1 [] = _
    rw [pingAppAux_succ_rejected_lt endpoint 3 2 1 [] h1 (by norm_num)]
    show pingAppAux endpoint 3 (1 + 1) 2 [BACKOFF_MS] = _
    rw [pingAppAux_succ_rejected_lt endpoint 3 1 2 [BACKOFF_MS] h2 (by norm_num)]
    show pingAppAux endpoint 3 (0 + 1) 3 [BACKOFF_MS, BACKOFF_MS] = _
    rw [pingAppAux_succ_ok200 endpoint 3 0 3 [BACKOFF_MS, BACKOFF_MS] hsucc]
    rfl

/-- Witness for the amended C1 at k = 2: two rejections then a 200. -/
theorem pingApp_rejected_k_then_success_witness :
    pingApp errTwiceThen200 = ⟨true, 2 + 1, List.replicate 2 BACKOFF_MS⟩ :=
  pingApp_rejected_k_then_success errTwiceThen200 2 (by norm_num)
    (fun i h1 h2 => by interval_cases i <;> rfl) rfl

/-- Claim C2, counterexample. The claim asserts that against an endpoint that
always fails, exactly 3 attempts and exactly 2 backoff sleeps occur. Against
an endpoint every attempt of which resolves with 204 No Content (every ping
fails, since success requires a 200), `pingApp` makes 3 attempts and returns
failure, but performs zero backoff sleeps, not two. -/
theorem pingApp_always_204_zero_sleeps_cex :
    isPingSuccess (alwaysRespond204 1) = false ∧
    isPingSuccess (alwaysRespond204 2) = false ∧
    isPingSuccess (alwaysRespond204 3) = false ∧
    pingApp alwaysRespond204 = ⟨false, 3, []⟩ ∧
    (pingApp alwaysRespond204).sleepsMs ≠ List.replicate 2 BACKOFF_MS := by
  refine ⟨rfl, rfl, rfl, rfl, ?_⟩
  intro hcon
  simp [pingApp, RETRY_COUNT] at hcon
  exact absurd (congrArg List.length hcon) (by decide)

/-- Claim C2, amended: for every keep-alive cycle whose every attempt is a
rejected request, exactly 3 attempts occur with exactly 2 constant 30000 ms
backoff sleeps, and the cycle returns failure normally (the exhaustion is a
logged boolean result, not an exception); the health endpoint handler is
untouched and still answers "healthy". -/
theorem pingApp_exhausted_after_three_rejections (endpoint : Nat → Outcome)
    (hfail : ∀ i, 1 ≤ i → i ≤ 3 → axiosGet (endpoint i) = AxiosResult.rejected) :
    pingApp endpoint = ⟨false, 3, List.replicate 2 BACKOFF_MS⟩ ∧
    ∀ u : Nat, (healthHandler u).status = "healthy" := by
  refine ⟨?_, fun u => rfl⟩
  have h1 := hfail 1 (by norm_num) (by norm_num)
  have h2 := hfail 2 (by norm_num) (by norm_num)
  have h3 := hfail 3 (by norm_num) (by norm_num)
  show pingAppAux endpoint 3 (2 + 1) 1 [] = _
  rw [pingAppAux_succ_rejected_lt endpoint 3 2 1 [] h1 (by norm_num)]
  show pingAppAux endpoint 3 (1 + 1) 2 [BACKOFF_MS] = _
  rw [pingAppAux_succ_rejected_lt endpoint 3 1 2 [BACKOFF_MS] h2 (by norm_num)]
  show pingAppAux endpoint 3 (0 + 1) 3 [BACKOFF_MS, BACKOFF_MS] = _
  rw [pingAppAux_succ_rejected_ge endpoint 3 0 3 [BACKOFF_MS, BACKOFF_MS] h3 (by norm_num)]
  rfl

/-- Witness for the amended C2: every request rejects. -/
theorem pingApp_exhausted_after_three_rejections_witness :
    pingApp allErrEndpoint = ⟨false, 3, List.replicate 2 BACKOFF_MS⟩ ∧
    ∀ u : Nat, (healthHandler u).status = "healthy" :=
  pingApp_exhausted_after_three_rejections allErrEndpoint (fun _ _ _ => rfl)

/-! ## Helper lemmas about the double-asterisk strip -/

theorem twoStepInduction (P : List Char → Prop) (h0 : P []) (h1 : ∀ c, P [c])
    (h2 : ∀ c1 c2 rest, P rest → P (c2 :: rest) → P (c1 :: c2 :: rest)) :
    ∀ s, P s
  | [] => h0
  | [c] => h1 c
  | c1 :: c2 :: rest =>
    h2 c1 c2 rest (twoStepInduction P h0 h1 h2 rest)
      (twoStepInduction P h0 h1 h2 (c2 :: rest))

theorem cleanStars_cons_ne (c : Char) (l : List Char) (hc : ¬ c = '*') :
    cleanStars (c :: l) = c :: cleanStars l := by
  cases l with
  | nil => rfl
  | cons c2 rest =>
    have hne : ¬ (c = '*' ∧ c2 = '*') := fun hp => hc hp.1
    simp only [cleanStars, if_neg hne]

theorem hasStarPair_cleanStars (s : List Char) :
    hasStarPair (cleanStars s) = false := by
  induction s using twoStepInduction with
  | h0 => rfl
  | h1 c => rfl
  | h2 c1 c2 rest ih1 ih2 =>
    by_cases hp : c1 = '*' ∧ c2 = '*'
    · simp only [cleanStars, if_pos hp]
      exact ih1
    · simp only [cleanStars, if_neg hp]
      by_cases hc1 : c1 = '*'
      · have hc2 : ¬ c2 = '*' := fun hc2 => hp ⟨hc1, hc2⟩
        have hb2 : (c2 == '*') = false := by
          simpa using hc2
        rw [cleanStars_cons_ne c2 rest hc2] at ih2 ⊢
        simp only [hasStarPair, hb2, Bool.and_false, Bool.false_or]
        exact ih2
      · have hb1 : (c1 == '*') = false := by
          simpa using hc1
        cases hX : cleanStars (c2 :: rest) with
        | nil => rfl
        | cons d tl =>
          rw [hX] at ih2
          simp only [hasStarPair, hb1, Bool.false_and, Bool.false_or]
          exact ih2

theorem hasStarPair_false_no_adj : ∀ (l : List Char),
    hasStarPair l = false →
    ∀ i : Nat, ¬ ((l[i]? = some '*') ∧ (l[i + 1]? = some '*')) := by
  intro l
  induction l using twoStepInduction with
  | h0 =>
    intro _ i hcon
    simp at hcon
  | h1 c =>
    intro _ i hcon
    rcases hcon with ⟨h1, h2⟩
    rcases i with _ | j <;> simp at h2
  | h2 c1 c2 rest ih1 ih2 =>
    intro h i
    have hsplit : ((c1 == '*') && (c2 == '*')) = false ∧ hasStarPair (c2 :: rest) = false := by
      have hh : (((c1 == '*') && (c2 == '*')) || hasStarPair (c2 :: rest)) = false := h
      exact Bool.or_eq_false_iff.mp hh
    rcases i with _ | j
    · rintro ⟨ha, hb⟩
      simp at ha hb
      rw [ha, hb] at hsplit
      simp at hsplit
    · rintro ⟨ha, hb⟩
      refine ih2 hsplit.2 j ⟨?_, ?_⟩
      · simpa using ha
      · simpa using hb

theorem cleanStars_sublist (s : List Char) : List.Sublist (cleanStars s) s := by
  induction s using twoStepInduction with
  | h0 => exact List.Sublist.refl []
  | h1 c => exact List.Sublist.refl [c]
  | h2 c1 c2 rest ih1 ih2 =>
    by_cases hp : c1 = '*' ∧ c2 = '*'
    · simp only [cleanStars, if_pos hp]
      exact List.Sublist.cons c1 (List.Sublist.cons c2 ih1)
    · simp only [cleanStars, if_neg hp]
      exact List.Sublist.cons₂ c1 ih2

theorem cleanStars_filter (s : List Char) :
    (cleanStars s).filter (fun c => c != '*') = s.filter (fun c => c != '*') := by
  induction s using twoStepInduction with
  | h0 => rfl
  | h1 c => rfl
  | h2 c1 c2 rest ih1 ih2 =>
    by_cases hp : c1 = '*' ∧ c2 = '*'
    · simp only [cleanStars, if_pos hp]
      rw [ih1]
      obtain ⟨hp1, hp2⟩ := hp
      subst hp1
      subst hp2
      simp [List.filter_cons]
    · simp only [cleanStars, if_neg hp]
      simp only [List.filter_cons, ih2]

/-! ## C3: the cleaning step -/

/-- Claim C3, confirmed: for every generated text, the cleaned result contains
no two consecutive asterisks at any position, and is otherwise
character-identical to the input — it is a subsequence of the input in which
every non-asterisk character of the input survives in order (only the matched
asterisk pairs are deleted). -/
theorem cleaned_text_has_no_star_pair (s : List Char) :
    (∀ i : Nat, ¬ (((cleanStars s)[i]? = some '*') ∧ ((cleanStars s)[i + 1]? = some '*'))) ∧
    List.Sublist (cleanStars s) s ∧
    (cleanStars s).filter (fun c => c != '*') = s.filter (fun c => c != '*') :=
  ⟨hasStarPair_false_no_adj (cleanStars s) (hasStarPair_cleanStars s),
   cleanStars_sublist s, cleanStars_filter s⟩

/-- Witness for C3 on the concrete text "a**b*". -/
theorem cleaned_text_has_no_star_pair_witness :
    (∀ i : Nat, ¬ (((cleanStars ['a', '*', '*', 'b', '*'])[i]? = some '*') ∧
      ((cleanStars ['a', '*', '*', 'b', '*'])[i + 1]? = some '*'))) ∧
    List.Sublist (cleanStars ['a', '*', '*', 'b', '*']) ['a', '*', '*', 'b', '*'] ∧
    (cleanStars ['a', '*', '*', 'b', '*']).filter (fun c => c != '*') =
      (['a', '*', '*', 'b', '*'] : List Char).filter (fun c => c != '*') :=
  cleaned_text_has_no_star_pair ['a', '*', '*', 'b', '*']

/-! ## C4: empty publish is a no-op -/

/-- Claim C4, confirmed: invoking the publisher with an absent or empty text
performs zero outbound calls and returns normally (a logged no-op, embedded as
`Except.ok` of the skipped trace). -/
theorem postToLinkedIn_empty_is_noop (content : Option String)
    (postApi : Except Unit Unit) (h : content = none ∨ content = some "") :
    postToLinkedInE content postApi = Except.ok ⟨PostResult.skippedEmpty, 0⟩ := by
  rcases h with h | h <;> subst h <;> rfl

/-- Witness for C4 with the empty string and a healthy posting API. -/
theorem postToLinkedIn_empty_is_noop_witness :
    ((some "" : Option String) = none ∨ (some "" : Option String) = some "") ∧
    postToLinkedInE (some "") (Except.ok ()) = Except.ok ⟨PostResult.skippedEmpty, 0⟩ :=
  ⟨Or.inr rfl, postToLinkedIn_empty_is_noop (some "") (Except.ok ()) (Or.inr rfl)⟩

/-! ## C5: generator returns absent on bad responses -/

/-- Claim C5, confirmed: whenever the Gemini call rejects, or the response has
a non-200 status, or it lacks a candidate list, or its first candidate is
malformed (the extraction expression throws), `generateContent` returns null
and never propagates an exception (`Except.ok none`). -/
theorem generateContent_absent_never_throws (ar : Except Unit GeminiResponse)
    (h : ar = Except.error () ∨
      ∃ r, ar = Except.ok r ∧
        (¬ r.status = 200 ∨ lacksCandidates r = true ∨
          ∃ d cs, r.data = some d ∧ d.candidates = some cs ∧
            extractFirstText cs = Except.error ())) :
    generateContentE ar = Except.ok none := by
  rcases h with rfl | ⟨r, rfl, hbad⟩
  · rfl
  · have hnone : processGeneratedContent r = none := by
      rcases hbad with hs | hl | ⟨d, cs, hd, hc, he⟩
      · simp [processGeneratedContent, hs]
      · by_cases hs : r.status = 200
        · cases hdt : r.data with
          | none => simp [processGeneratedContent, hs, hdt]
          | some d =>
            cases hct : d.candidates with
            | none => simp [processGeneratedContent, hs, hdt, hct]
            | some cs =>
              have hemp : cs.isEmpty = true := by
                simpa [lacksCandidates, hdt, hct] using hl
              simp [processGeneratedContent, hs, hdt, hct, hemp]
        · simp [processGeneratedContent, hs]
      · by_cases hs : r.status = 200
        · by_cases hemp : cs.isEmpty
          · simp [processGeneratedContent, hs, hd, hc, hemp]
          · simp [processGeneratedContent, hs, hd, hc, hemp, he]
        · simp [processGeneratedContent, hs]
    simp [generateContentE, hnone]

/-- Witness for C5: a 200 response whose body has no candidate list. -/
theorem generateContent_absent_never_throws_witness :
    lacksCandidates noCandidatesResponse = true ∧
    generateContentE (Except.ok noCandidatesResponse) = Except.ok none :=
  ⟨rfl, generateContent_absent_never_throws (Except.ok noCandidatesResponse)
    (Or.inr ⟨noCandidatesResponse, rfl, Or.inr (Or.inl rfl)⟩)⟩

/-! ## C6 and C9: the workflow and the trigger handler -/

theorem generateContentE_eq (ar : Except Unit GeminiResponse) :
    generateContentE ar = Except.ok (genResult ar) := by
  cases ar <;> rfl

theorem runContentWorkflowE_eq (ar : Except Unit GeminiResponse)
    (pa : Except Unit Unit) :
    runContentWorkflowE ar pa = Except.ok
      (match genResult ar with
       | none => [WorkflowEvent.genCall]
       | some s =>
         if s = "" then [WorkflowEvent.genCall]
         else [WorkflowEvent.genCall, WorkflowEvent.publishCall]) := by
  unfold runContentWorkflowE
  rw [generateContentE_eq ar]
  cases hg : genResult ar with
  | none => rfl
  | some s =>
    by_cases hs : s = ""
    · simp [hs]
    · simp only [if_neg hs]
      cases pa <;> simp [postToLinkedInE, if_neg hs]

/-- Claim C6, confirmed: every workflow run produces a trace in which the
generation call comes first, the publish call (when present) comes strictly
after it, and the publish call is present exactly when generation produced a
truthy (non-null, non-empty) result. -/
theorem workflow_generation_precedes_publish (ar : Except Unit GeminiResponse)
    (pa : Except Unit Unit) :
    ∃ t, runContentWorkflowE ar pa = Except.ok t ∧
      (t = [WorkflowEvent.genCall] ∨
        t = [WorkflowEvent.genCall, WorkflowEvent.publishCall]) ∧
      (t = [WorkflowEvent.genCall, WorkflowEvent.publishCall] ↔
        ∃ s, genResult ar = some s ∧ ¬ s = "") := by
  cases hg : genResult ar with
  | none =>
    refine ⟨[WorkflowEvent.genCall], ?_, Or.inl rfl, ?_⟩
    · rw [runContentWorkflowE_eq, hg]
    · constructor
      · intro ht
        simp at ht
      · rintro ⟨s, hs, _⟩
        cases hs
  | some s =>
    by_cases hs : s = ""
    · refine ⟨[WorkflowEvent.genCall], ?_, Or.inl rfl, ?_⟩
      · rw [runContentWorkflowE_eq, hg]
        simp [hs]
      · constructor
        · intro ht
          simp at ht
        · rintro ⟨s', hs', hne⟩
          injection hs' with hss
          exact absurd (hss ▸ hs) hne
    · refine ⟨[WorkflowEvent.genCall, WorkflowEvent.publishCall], ?_, Or.inr rfl, ?_⟩
      · rw [runContentWorkflowE_eq, hg]
        simp [hs]
      · exact ⟨fun _ => ⟨s, rfl, hs⟩, fun _ => rfl⟩

/-- Witness for C6 with a rejected generation call. -/
theorem workflow_generation_precedes_publish_witness :
    ∃ t, runContentWorkflowE (Except.error ()) (Except.ok ()) = Except.ok t ∧
      (t = [WorkflowEvent.genCall] ∨
        t = [WorkflowEvent.genCall, WorkflowEvent.publishCall]) ∧
      (t = [WorkflowEvent.genCall, WorkflowEvent.publishCall] ↔
        ∃ s, genResult (Except.error ()) = some s ∧ ¬ s = "") :=
  workflow_generation_precedes_publish (Except.error ()) (Except.ok ())

/-- Claim C9, confirmed: the workflow invocation never rejects — every awaited
network call catches its own errors — so the handler's 500 branch is
unreachable and `POST /trigger-post` always answers 200 with the success
message, whatever the generation and publish outcomes. -/
theorem triggerPost_always_succeeds (ar : Except Unit GeminiResponse)
    (pa : Except Unit Unit) :
    triggerPostResponse ar pa = (200, SUCCESS_MSG) := by
  unfold triggerPostResponse
  rw [runContentWorkflowE_eq]

/-- Witness for C9 with both outbound calls failing. -/
theorem triggerPost_always_succeeds_witness :
    triggerPostResponse (Except.error ()) (Except.error ()) = (200, SUCCESS_MSG) :=
  triggerPost_always_succeeds (Except.error ()) (Except.error ())

/-! ## C7 and C10: startup validation and the server port -/

theorem startup_of_validate_some (env : String → Option String) (w : String)
    (hval : validateEnv env = some w) :
    startup env = StartupResult.exitedMissing 1 w ∧
    ∀ p, startup env ≠ StartupResult.serverStarted p := by
  constructor
  · simp [startup, hval]
  · intro p hcon
    simp [startup, hval] at hcon

/-- Claim C7, confirmed: whenever at least one required environment variable
(the Gemini key, the LinkedIn person id, the LinkedIn access token, or PORT)
is missing or empty, startup exits the process with code 1 naming a missing
required variable, and no server is ever started — the failure is not
deferred. -/
theorem startup_missing_env_exits (env : String → Option String)
    (h : ∃ v, v ∈ REQUIRED_ENV_VARS ∧ envTruthy (env v) = false) :
    (∃ v, v ∈ REQUIRED_ENV_VARS ∧ startup env = StartupResult.exitedMissing 1 v) ∧
    ∀ p, startup env ≠ StartupResult.serverStarted p := by
  cases h1 : envTruthy (env "GEMINI_API_KEY") with
  | false =>
    have hval : validateEnv env = some "GEMINI_API_KEY" := by
      simp [validateEnv, REQUIRED_ENV_VARS, List.find?, h1]
    have hres := startup_of_validate_some env "GEMINI_API_KEY" hval
    exact ⟨⟨"GEMINI_API_KEY", by simp [REQUIRED_ENV_VARS], hres.1⟩, hres.2⟩
  | true =>
    cases h2 : envTruthy (env "LINKEDIN_PERSON_ID") with
    | false =>
      have hval : validateEnv env = some "LINKEDIN_PERSON_ID" := by
        simp [validateEnv, REQUIRED_ENV_VARS, List.find?, h1, h2]
      have hres := startup_of_validate_some env "LINKEDIN_PERSON_ID" hval
      exact ⟨⟨"LINKEDIN_PERSON_ID", by simp [REQUIRED_ENV_VARS], hres.1⟩, hres.2⟩
    | true =>
      cases h3 : envTruthy (env "LINKEDIN_ACCESS_TOKEN") with
      | false =>
        have hval : validateEnv env = some "LINKEDIN_ACCESS_TOKEN" := by
          simp [validateEnv, REQUIRED_ENV_VARS, List.find?, h1, h2, h3]
        have hres := startup_of_validate_some env "LINKEDIN_ACCESS_TOKEN" hval
        exact ⟨⟨"LINKEDIN_ACCESS_TOKEN", by simp [REQUIRED_ENV_VARS], hres.1⟩, hres.2⟩
      | true =>
        cases h4 : envTruthy (env "PORT") with
        | false =>
          have hval : validateEnv env = some "PORT" := by
            simp [validateEnv, REQUIRED_ENV_VARS, List.find?, h1, h2, h3, h4]
          have hres := startup_of_validate_some env "PORT" hval
          exact ⟨⟨"PORT", by simp [REQUIRED_ENV_VARS], hres.1⟩, hres.2⟩
        | true =>
          exfalso
          obtain ⟨v, hv, hfalse⟩ := h
          simp [REQUIRED_ENV_VARS] at hv
          rcases hv with rfl | rfl | rfl | rfl <;> simp_all

/-- Witness for C7: the environment missing only PORT. -/
theorem startup_missing_env_exits_witness :
    (∃ v, v ∈ REQUIRED_ENV_VARS ∧
      startup envMissingPort = StartupResult.exitedMissing 1 v) ∧
    ∀ p, startup envMissingPort ≠ StartupResult.serverStarted p :=
  startup_missing_env_exits envMissingPort ⟨"PORT", by simp [REQUIRED_ENV_VARS], rfl⟩

/-- Claim C10, confirmed: in every process that reaches server construction,
PORT was validated truthy, so `process.env.PORT || 3000` evaluates to the
configured PORT value itself — the default-port fallback is unreachable. -/
theorem server_listens_on_env_port (env : String → Option String) (p : String)
    (h : startup env = StartupResult.serverStarted p) :
    env "PORT" = some p ∧ ¬ p = "" := by
  unfold startup at h
  cases hval : validateEnv env with
  | some w =>
    rw [hval] at h
    simp at h
  | none =>
    rw [hval] at h
    have hp : jsOrDefault (env "PORT") "3000" = p := by
      injection h
    have hPORT : envTruthy (env "PORT") = true := by
      have hall := List.find?_eq_none.mp hval "PORT" (by simp [REQUIRED_ENV_VARS])
      cases hb : envTruthy (env "PORT") with
      | true => rfl
      | false => exact absurd (by simp [hb]) hall
    cases he : env "PORT" with
    | none =>
      rw [he] at hPORT
      simp [envTruthy] at hPORT
    | some s =>
      rw [he] at hPORT
      have hs : ¬ s = "" := by
        simpa [envTruthy] using hPORT
      rw [he] at hp
      have hsp : s = p := by
        simpa [jsOrDefault, hs] using hp
      exact ⟨by rw [hsp], hsp ▸ hs⟩

/-- Witness for C10: every variable set; the server listens on the PORT value. -/
theorem server_listens_on_env_port_witness :
    envAllSet "PORT" = some "PORT" ∧ ¬ "PORT" = "" :=
  server_listens_on_env_port envAllSet "PORT" (by decide)

/-! ## C8: the keep-alive timer and the enabled flag -/

/-- Claim C8, counterexample. The claim asserts the keep-alive timer fires on
its interval regardless of configuration, with the disabled check living
inside the pinger. In the code, `startKeepAlive` returns early when the flag
is disabled and never schedules the cron job at all: with the flag false, no
keep-alive timer exists to fire. -/
theorem keepAlive_timer_unarmed_when_disabled_cex :
    ¬ ScheduledJob.keepAliveCron ∈ startKeepAlive false := by
  decide

/-- Claim C8, amended: the keep-alive cron timer is armed only when the
enabled flag is true — `startKeepAlive` schedules nothing when disabled — and
`pingServer` itself also checks the flag first: when disabled it performs
zero outbound calls (this guard covers the unconditional initial delayed ping
in `Server.start`), while when enabled each firing performs exactly one. -/
theorem keepAlive_flag_guards_cycle (o : Outcome) :
    startKeepAlive true = [ScheduledJob.keepAliveCron] ∧
    startKeepAlive false = [] ∧
    pingServer false o = ⟨PingServerResult.skippedDisabled, 0⟩ ∧
    (pingServer true o).outboundCalls = 1 := by
  refine ⟨rfl, rfl, rfl, ?_⟩
  cases h : axiosGet o <;> simp [pingServer, h]

/-- Witness for the amended C8 with a rejecting health endpoint. -/
theorem keepAlive_flag_guards_cycle_witness :
    startKeepAlive true = [ScheduledJob.keepAliveCron] ∧
    startKeepAlive false = [] ∧
    pingServer false Outcome.err = ⟨PingServerResult.skippedDisabled, 0⟩ ∧
    (pingServer true Outcome.err).outboundCalls = 1 :=
  keepAlive_flag_guards_cycle Outcome.err
